import Mathlib

/-!
Verification development for the prompt-quality evaluation engine
(`backend/scoring.py`, `backend/llm_eval.py`, `backend/app.py`).

The Python code is shallowly embedded: each rule function of
`scoring.py` becomes a Lean function on the character list of the
(stripped) input text, Python's `re.search` calls on the fixed
case-insensitive patterns become executable search functions over
character lists with explicit word-boundary handling, and Python's
float `round` (round-half-to-even, exact here because every quotient
has denominator dividing 4) becomes `pyRound` on rationals.
-/

set_option maxRecDepth 100000

/-- ASCII whitespace recognized by Python's `str.strip` / `str.split`. -/
def isPySpace (c : Char) : Bool :=
  c = ' ' || c = '\t' || c = '\n' || c = '\x0b' || c = '\x0c' || c = '\r'

/-- Python `str.strip()` on a character list. -/
def pyStrip (s : List Char) : List Char :=
  ((s.dropWhile isPySpace).reverse.dropWhile isPySpace).reverse

/-- Word character for the regex `\b` boundary (`\w` = alphanumeric or underscore;
the repository's patterns and inputs are ASCII). -/
def isWordCh (c : Char) : Bool :=
  c.isAlphanum || c = '_'

/-- Lowercase a character list (models matching under `re.I` with
all-lowercase ASCII patterns). -/
def lowerList (s : List Char) : List Char :=
  s.map Char.toLower

/-- Helper for `len(text.split())`: counts maximal nonempty runs of
non-whitespace characters; the flag records whether we are inside a run. -/
def countWordsAux : Bool → List Char → Nat
  | _, [] => 0
  | inW, c :: rest =>
    if isPySpace c then countWordsAux false rest
    else (if inW then 0 else 1) + countWordsAux true rest

/-- Python `len(text.split())`. -/
def wordCount (s : List Char) : Nat :=
  countWordsAux false s

/-- A `\b` word boundary holds between two positions iff exactly one side is a
word character; the ends of the string count as non-word. `boundOkL prev first`
is the boundary test just before a match starting with `first`, where `prev` is
the preceding character (if any). -/
def boundOkL (prev : Option Char) (first : Char) : Bool :=
  match prev with
  | none => isWordCh first
  | some p => isWordCh p != isWordCh first

/-- Boundary test just after a match ending with `last`, where `rest` is the
remainder of the text. -/
def boundOkR (last : Char) (rest : List Char) : Bool :=
  match rest with
  | [] => isWordCh last
  | c :: _ => isWordCh last != isWordCh c

/-- Generic scanner: tries `check prev suffixAtPos` at every position of the
text (including the empty final suffix), tracking the preceding character. -/
def scanAux (check : Option Char → List Char → Bool) : Option Char → List Char → Bool
  | prev, [] => check prev []
  | prev, c :: rest => check prev (c :: rest) || scanAux check (some c) rest

/-- Model of `re.search(r"\b<lit>\b", text, re.I)` for a literal `lit`
(possibly containing spaces or a trailing `:`); `lit` is written lowercase,
the text is lowercased before matching. -/
def searchLit (lit : String) (s : List Char) : Bool :=
  match lit.data with
  | [] => false
  | first :: _ =>
    scanAux
      (fun prev cur =>
        boundOkL prev first && lit.data.isPrefixOf cur &&
          boundOkR (lit.data.getLastD first) (cur.drop lit.data.length))
      none (lowerList s)

/-- Model of `re.search` for an alternation of bounded literals
`\b(l1|l2|...)\b`. -/
def searchAnyLit (lits : List String) (s : List Char) : Bool :=
  lits.any (fun l => searchLit l s)

/-- Model of `re.search(r"<lit>", text, re.I)` with no `\b` anchors:
plain case-insensitive substring containment. -/
def searchSub (lit : String) (s : List Char) : Bool :=
  scanAux (fun _ cur => lit.data.isPrefixOf cur) none (lowerList s)

/-- Plain case-sensitive substring containment on character lists. -/
def containsSub (pat s : List Char) : Bool :=
  scanAux (fun _ cur => pat.isPrefixOf cur) none s

/-- Model of `\b\d+\b` under `re.search`: some digit run is delimited by
non-word characters (or the ends of the text) on both sides. -/
def searchNum (s : List Char) : Bool :=
  scanAux
    (fun prev cur =>
      match cur with
      | [] => false
      | c :: rest =>
        c.isDigit &&
          (match prev with | none => true | some p => !isWordCh p) &&
          (match rest.dropWhile Char.isDigit with
           | [] => true
           | a :: _ => !isWordCh a))
    none (lowerList s)

/-- Model of the `top \d+` alternative of the specificity pattern
(`\b` before `top`, `\b` after the digit run). -/
def searchTopNum (s : List Char) : Bool :=
  scanAux
    (fun prev cur =>
      (match prev with | none => true | some p => !isWordCh p) &&
      ("top ".data.isPrefixOf cur) &&
      (let r := cur.drop 4
       !(r.takeWhile Char.isDigit).isEmpty &&
         (match r.dropWhile Char.isDigit with
          | [] => true
          | a :: _ => !isWordCh a)))
    none (lowerList s)

/-- Model of `\b(in \d+ (words|sentences|bullets|lines))\b`. -/
def searchInNumFmt (s : List Char) : Bool :=
  scanAux
    (fun prev cur =>
      (match prev with | none => true | some p => !isWordCh p) &&
      ("in ".data.isPrefixOf cur) &&
      (let r := cur.drop 3
       !(r.takeWhile Char.isDigit).isEmpty &&
         (match r.dropWhile Char.isDigit with
          | ' ' :: r3 =>
            ["words", "sentences", "bullets", "lines"].any
              (fun u => u.data.isPrefixOf r3 && boundOkR 's' (r3.drop u.length))
          | _ => false)))
    none (lowerList s)

/-- Search for `post` (optionally followed by a `\b` boundary) in the text,
with no newline consumed before it: models the `.*<post>` tail of a pattern,
since `.` does not match a newline. -/
def dotStarTail (post : List Char) (bounded : Bool) : List Char → Bool
  | [] => false
  | c :: rest =>
    (post.isPrefixOf (c :: rest) &&
      (!bounded || boundOkR (post.getLastD 'x') ((c :: rest).drop post.length)))
    || (c != '\n' && dotStarTail post bounded rest)

/-- Model of `re.search` for `pre.*post` patterns (`bounded = false`, as in
`why is .* better than`) and `\bpre.*post\b` patterns (`bounded = true`, as in
`if .* missing`), case-insensitively. -/
def searchDotStar (pre post : String) (bounded : Bool) (s : List Char) : Bool :=
  match pre.data with
  | [] => false
  | first :: _ =>
    scanAux
      (fun prev cur =>
        (!bounded || boundOkL prev first) && pre.data.isPrefixOf cur &&
          dotStarTail post.data bounded (cur.drop pre.data.length))
      none (lowerList s)

/-- Pydantic `Subscore` model: a named attribute sub-score with a comment. -/
structure Subscore where
  name : String
  score : ℤ
  comment : String
deriving DecidableEq, Repr

/-- Pydantic `Suggestion` model: an actionable tip with title and body. -/
structure Suggestion where
  title : String
  text : String
deriving DecidableEq, Repr

/-- Pydantic `EvaluationResponse` model returned by the evaluation engine. -/
structure EvaluationResponse where
  label : String
  score : ℤ
  summary : String
  subscores : List Subscore
  feedback : List String
  suggestions : List Suggestion
  improved_prompt : Option String
deriving DecidableEq, Repr

/-- The module-level `question_words` list of `scoring.py`. -/
def question_words : List String :=
  ["who", "what", "when", "where", "why", "how", "which"]

/-- Rule `_clarity` of `scoring.py`. -/
def _clarity (text : List Char) : ℤ × String :=
  let has_qmark := text.contains '?'
  let has_qword := question_words.any (fun w => searchLit w text)
  let words := wordCount text
  if has_qmark ∧ has_qword ∧ 6 ≤ words then (5, "Clear, direct question")
  else if has_qmark ∨ has_qword then (4, "Question is somewhat clear")
  else if words < 6 then (2, "Too short/vague to understand")
  else (3, "Make it a direct question with a clear ask.")

/-- Rule `_specificity` of `scoring.py`. -/
def _specificity (text : List Char) (goal : Option String) : ℤ × String :=
  let hits : ℤ :=
    (if searchNum text ∨ searchTopNum text ∨ searchLit "at least" text ∨
        searchLit "no more than" text then 1 else 0) +
    (if searchAnyLit ["for", "about", "regarding", "focused on"] text then 1 else 0) +
    (if (match goal with
         | some g => g != "" && decide (8 ≤ (pyStrip g.data).length)
         | none => false) then 1 else 0)
  if 3 ≤ hits then (5, "Specific objective and constraints")
  else if hits = 2 then (4, "Reasonably specific")
  else if hits = 1 then (3, "Add more specifics (topic/audience/count).")
  else (2, "Too general—narrow the scope.")

/-- Rule `_context` of `scoring.py`. -/
def _context (text : List Char) : ℤ × String :=
  if searchAnyLit ["context:", "given", "below", "attached", "based on", "here is"] text then
    (5, "Provides relevant context")
  else if 60 < wordCount text then (3, "Some context implied by length")
  else (2, "Provide key background or inputs.")

/-- Rule `_constraints_and_format` of `scoring.py`; `bullets?` is expanded to
the two literals it can match. -/
def _constraints_and_format (text : List Char) : ℤ × String :=
  let hits : ℤ :=
    (if searchInNumFmt text then 1 else 0) +
    (if searchAnyLit ["format", "schema", "json", "table", "markdown", "bullet", "bullets"] text
     then 1 else 0) +
    (if searchAnyLit ["tone", "style", "audience", "level"] text then 1 else 0)
  if 2 ≤ hits then (5, "Clear constraints and expected format")
  else if hits = 1 then (3, "Some constraints present")
  else (2, "Specify length, audience, or format.")

/-- Rule `_scope_feasibility` of `scoring.py`. -/
def _scope_feasibility (text : List Char) : ℤ × String :=
  if searchAnyLit ["everything", "anything", "all about", "complete guide"] text then
    (2, "Scope is too broad—narrow it.")
  else if wordCount text < 6 then (2, "Too short to determine scope")
  else (4, "Scope seems reasonable")

/-- Rule `_neutrality` of `scoring.py`; its pattern has no `\b` anchors. -/
def _neutrality (text : List Char) : ℤ × String :=
  if searchDotStar "why is " " better than" false text ∨ searchSub "prove that" text ∨
      searchSub "obviously" text ∨ searchSub "clearly" text then
    (2, "Question appears leading or biased. Consider neutral phrasing.")
  else (4, "Neutral phrasing")

/-- Rule `_outcome_oriented` of `scoring.py`. -/
def _outcome_oriented (text : List Char) : ℤ × String :=
  if searchAnyLit ["so that", "goal", "use this to", "i need to"] text then
    (4, "Mentions desired outcome/use")
  else (3, "Optionally state intended outcome to guide answers.")

/-- Rule `_clarification_handling` of `scoring.py`; the `(a )?` group and the
`.*` alternatives are expanded. -/
def _clarification_handling (text : List Char) : ℤ × String :=
  if searchLit "ask clarifying question" text ∨ searchLit "ask a clarifying question" text ∨
      searchDotStar "if " " missing" true text ∨ searchDotStar "if " " unclear" true text ∨
      searchLit "if unsure" text then
    (5, "Invites clarification for ambiguities")
  else (3, "Encourage clarifying questions when info is missing.")

/-- Classifier `_label_from_score` of `scoring.py`. -/
def _label_from_score (score : ℤ) : String :=
  if 75 ≤ score then "good"
  else if 45 ≤ score then "ok"
  else "bad"

/-- Python's built-in `round` (round half to even) on a rational; exact model
of `round(100 * raw / 40)` since those quotients are exactly representable
as floats. -/
def pyRound (q : ℚ) : ℤ :=
  let f := q.floor
  if q - f < 1 / 2 then f
  else if 1 / 2 < q - f then f + 1
  else if f % 2 = 0 then f else f + 1

/-- The `subs` list built by the loop in `score_prompt`: the fixed rubric
order of (name, (score, comment)) for the eight attribute rules. -/
def subsOf (text : List Char) (goal : Option String) : List (String × ℤ × String) :=
  [("Clarity", _clarity text),
   ("Specificity", _specificity text goal),
   ("Context", _context text),
   ("Constraints & Format", _constraints_and_format text),
   ("Scope & Feasibility", _scope_feasibility text),
   ("Neutrality", _neutrality text),
   ("Outcome Orientation", _outcome_oriented text),
   ("Clarification", _clarification_handling text)]

/-- Synthesizer `build_improved_prompt` of `scoring.py`. As in the source,
the `prompt` parameter is accepted but never used by the body. -/
def build_improved_prompt (prompt : String) (goal : Option String)
    (subs : List (String × ℤ × String)) : String :=
  let needs_format :=
    (((subs.find? (fun x => x.1 == "Constraints & Format")).map (fun x => x.2.1)).getD 0) ≤ 3
  let needs_specificity :=
    (((subs.find? (fun x => x.1 == "Specificity")).map (fun x => x.2.1)).getD 0) ≤ 3
  let needs_context :=
    (((subs.find? (fun x => x.1 == "Context")).map (fun x => x.2.1)).getD 0) ≤ 3
  let g := match goal with
    | none => "State your purpose (e.g., for executives)."
    | some s => if s = "" then "State your purpose (e.g., for executives)." else s
  let parts : List String :=
    ["Question: How can I " ++ (if ¬needs_specificity then "best " else "") ++
      "achieve this goal?"] ++
    (if needs_context then
      ["Context: Briefly include the most relevant background or inputs."] else []) ++
    (if needs_specificity then
      ["Specifics: Limit to top 3 points and focus on what\x27s actionable."] else []) ++
    (if needs_format then
      ["Format: Return 5 bullet points and a short summary (<=120 words)."] else []) ++
    ["If information is missing, ask up to 2 clarifying questions before answering."] ++
    ["Goal: " ++ g]
  String.intercalate "\n\n" parts

/-- The feedback list built by the `for name, s, c in subs` loop of
`score_prompt`: one `f"{name}: {c}"` entry per attribute scoring `<= 3`,
in `subs` order. -/
def feedbackOf (subs : List (String × ℤ × String)) : List String :=
  subs.filterMap (fun x => if x.2.1 ≤ 3 then some (x.1 ++ ": " ++ x.2.2) else none)

/-- The suggestions list built by the six sequential `if any(...)` blocks of
`score_prompt`; the source has no block for Context or Outcome Orientation. -/
def suggestionsOf (subs : List (String × ℤ × String)) : List Suggestion :=
  (if subs.any (fun x => x.1 == "Clarity" && decide (x.2.1 ≤ 3)) then
      [⟨"Ask a direct question",
        "Use a single, specific question (e.g., \x27How can I ...?\x27)."⟩] else []) ++
    (if subs.any (fun x => x.1 == "Specificity" && decide (x.2.1 ≤ 3)) then
      [⟨"Narrow the focus",
        "Add audience, topic, and numbers (e.g., \x27top 3\x27, \x27in 200 words\x27)."⟩] else []) ++
    (if subs.any (fun x => x.1 == "Constraints & Format" && decide (x.2.1 ≤ 3)) then
      [⟨"Set expectations",
        "Request a format (bullets/table/JSON) and length/tone."⟩] else []) ++
    (if subs.any (fun x => x.1 == "Scope & Feasibility" && decide (x.2.1 ≤ 3)) then
      [⟨"Right-size the scope",
        "Avoid \x27everything/anything\x27; ask for the most relevant parts."⟩] else []) ++
    (if subs.any (fun x => x.1 == "Neutrality" && decide (x.2.1 ≤ 3)) then
      [⟨"Use neutral phrasing",
        "Prefer \x27Compare X and Y\x27 over \x27Why is X better?\x27."⟩] else []) ++
    (if subs.any (fun x => x.1 == "Clarification" && decide (x.2.1 ≤ 3)) then
      [⟨"Invite questions",
        "Allow 1–2 clarifying questions if information is missing."⟩] else [])

/-- The summary string selected by label in `score_prompt`. -/
def summaryOf (label : String) : String :=
  if label = "good" then "Strong question—clear, specific, and easy to answer."
  else if label = "ok" then "Decent question—add context, specifics, or format to improve."
  else "Vague question—clarify ask, scope, context, and format."

/-- The local pipeline `score_prompt` of `scoring.py`. -/
def score_prompt (prompt : String) (goal : Option String := none) : EvaluationResponse :=
  let text := pyStrip prompt.data
  let subs := subsOf text goal
  let max_points : ℤ := 5 * subs.length
  let raw : ℤ := (subs.map (fun x => x.2.1)).sum
  let score := pyRound ((100 * raw : ℤ) / (max_points : ℚ))
  let label := _label_from_score score
  let feedback := feedbackOf subs
  let suggestions := suggestionsOf subs
  let improved := build_improved_prompt prompt goal subs
  let subscores : List Subscore := subs.map (fun x => ⟨x.1, x.2.1, x.2.2⟩)
  let summary := summaryOf label
  ⟨label, score, summary, subscores, feedback, suggestions, some improved⟩

/-!
Model of the external-evaluator adapter (`llm_eval.py`) and the
orchestrator endpoint (`app.py`). The network exchange and Python's
`json.loads` are external collaborators: the exchange is modelled by the
`OllamaWire` value describing what the endpoint did, and `json.loads`
(applied to the generated text carried in the response) by an explicit
function parameter `loads`; a `none` result of either models the
corresponding exception. JSON numbers are modelled as integers, which
covers every field the adapter coerces.
-/

/-- Untrusted JSON value delivered by the external evaluator. -/
inductive Json where
  | null : Json
  | bool (b : Bool) : Json
  | num (n : ℤ) : Json
  | str (s : String) : Json
  | arr (xs : List Json) : Json
  | obj (kvs : List (String × Json)) : Json

/-- Python `dict.get` on a decoded JSON object. -/
def jget (kvs : List (String × Json)) (k : String) : Option Json :=
  ((kvs.find? (fun p => p.1 == k)).map (fun p => p.2))

/-- Python `str()` of a JSON value, as used on the `label` field. Container
values are abbreviated: only the fact that their rendering is never one of
the three labels matters, which any bracketed rendering guarantees. -/
def pyStr : Json → String
  | .null => "None"
  | .bool true => "True"
  | .bool false => "False"
  | .num n => toString n
  | .str s => s
  | .arr _ => "[...]"
  | .obj _ => "\x7b...\x7d"

/-- Value of a nonempty all-digit run, for Python `int(str)`. -/
def digitsVal (ds : List Char) : Option ℤ :=
  if ds ≠ [] ∧ ds.all Char.isDigit then
    some (ds.foldl (fun a c => a * 10 + ((c.toNat : ℤ) - 48)) 0)
  else none

/-- Python `int()` applied to a string: strips whitespace, allows one sign,
then requires a nonempty digit run; anything else raises (modelled `none`). -/
def pyIntOfStr (s : String) : Option ℤ :=
  match pyStrip s.data with
  | '+' :: ds => digitsVal ds
  | '-' :: ds => (digitsVal ds).map Int.neg
  | ds => digitsVal ds

/-- Python `int()` applied to a JSON value (as on the `score` fields):
ints pass through, bools coerce, numeric strings parse, everything else
raises (modelled `none`). -/
def pyInt : Json → Option ℤ
  | .num n => some n
  | .bool b => some (if b then 1 else 0)
  | .str s => pyIntOfStr s
  | _ => none

/-- Python `str.lower()` for ASCII strings, built on the character list. -/
def strLower (s : String) : String :=
  ⟨lowerList s.data⟩

/-- Coercion of the `label` field: `str(obj.get("label", "ok")).lower()`
followed by the pydantic `Literal["good","ok","bad"]` validation. -/
def coerceLabel (v : Option Json) : Option String :=
  let s := strLower (pyStr (v.getD (Json.str "ok")))
  if s = "good" ∨ s = "ok" ∨ s = "bad" then some s else none

/-- Coercion of the `score` field: `int(obj.get("score", 60))` followed by
the pydantic `Field(ge=0, le=100)` validation. -/
def coerceScore (v : Option Json) : Option ℤ :=
  match pyInt (v.getD (Json.num 60)) with
  | none => none
  | some n => if 0 ≤ n ∧ n ≤ 100 then some n else none

/-- Pydantic validation of a `str` field: accepts exactly strings. -/
def coerceStr : Json → Option String
  | .str s => some s
  | _ => none

/-- Coercion of the `summary` field: `obj.get("summary", "")` validated as a
string. -/
def coerceSummary (v : Option Json) : Option String :=
  coerceStr (v.getD (Json.str ""))

/-- Pydantic validation of a required `Subscore.score` field:
int-coercible and within `Field(ge=0, le=5)`. -/
def coerceScore05 (v : Option Json) : Option ℤ :=
  match v with
  | none => none
  | some j =>
    match pyInt j with
    | none => none
    | some n => if 0 ≤ n ∧ n ≤ 5 then some n else none

/-- Pydantic validation of one element of `subscores`. -/
def coerceSubscore : Json → Option Subscore
  | .obj kvs => do
      let nm ← (jget kvs "name").bind coerceStr
      let sc ← coerceScore05 (jget kvs "score")
      let cm ← (jget kvs "comment").bind coerceStr
      pure ⟨nm, sc, cm⟩
  | _ => none

/-- Coercion of the `subscores` field: `obj.get("subscores", [])` validated as
`List[Subscore]`. -/
def coerceSubscores (v : Option Json) : Option (List Subscore) :=
  match v.getD (Json.arr []) with
  | .arr xs => xs.mapM coerceSubscore
  | _ => none

/-- Coercion of the `feedback` field: `obj.get("feedback", [])` validated as
`List[str]`. -/
def coerceFeedback (v : Option Json) : Option (List String) :=
  match v.getD (Json.arr []) with
  | .arr xs => xs.mapM coerceStr
  | _ => none

/-- Pydantic validation of one element of `suggestions`. -/
def coerceSuggestion : Json → Option Suggestion
  | .obj kvs => do
      let t ← (jget kvs "title").bind coerceStr
      let x ← (jget kvs "text").bind coerceStr
      pure ⟨t, x⟩
  | _ => none

/-- Coercion of the `suggestions` field: `obj.get("suggestions", [])`
validated as `List[Suggestion]`. -/
def coerceSuggestions (v : Option Json) : Option (List Suggestion) :=
  match v.getD (Json.arr []) with
  | .arr xs => xs.mapM coerceSuggestion
  | _ => none

/-- Coercion of the `improved_prompt` field: `obj.get("improved_prompt")`
validated as `Optional[str]` (missing or JSON null become `None`). -/
def coerceImproved (v : Option Json) : Option (Option String) :=
  match v with
  | none => some none
  | some .null => some none
  | some (.str s) => some (some s)
  | some _ => none

/-- The `EvaluationResponse(...)` construction inside the final `try` block of
`evaluate_with_ollama`: every field is coerced, and any single failure fails
the whole coercion (the `except` returns `None`). A non-object payload fails
immediately (`obj.get` raises). -/
def coerceResponse : Json → Option EvaluationResponse
  | .obj kvs => do
      let label ← coerceLabel (jget kvs "label")
      let score ← coerceScore (jget kvs "score")
      let summary ← coerceSummary (jget kvs "summary")
      let subscores ← coerceSubscores (jget kvs "subscores")
      let feedback ← coerceFeedback (jget kvs "feedback")
      let suggestions ← coerceSuggestions (jget kvs "suggestions")
      let improved ← coerceImproved (jget kvs "improved_prompt")
      pure ⟨label, score, summary, subscores, feedback, suggestions, improved⟩
  | _ => none

/-- Outcome of the single HTTP exchange with the Ollama endpoint:
either the transport raised, or a response arrived with a status code and a
body whose top-level JSON decode either succeeded (`some data`) or raised
(`none`, the `resp.json()` failure). -/
inductive OllamaWire where
  | transportError : OllamaWire
  | response (status : Nat) (body : Option Json) : OllamaWire

/-- Adapter `evaluate_with_ollama` of `llm_eval.py`. `enabled` is
`cfg.ollama.enabled`; `loads` models Python's `json.loads` applied to the
generated text (`none` = decode exception); `wire` is the outcome of the
HTTP exchange. `raise_for_status` raises for every non-2xx status. The
`prompt` and `goal` arguments only shape the outgoing request, which the
wire outcome already summarizes. -/
def evaluate_with_ollama (prompt : String) (goal : Option String) (enabled : Bool)
    (loads : String → Option Json) (wire : OllamaWire) : Option EvaluationResponse :=
  if enabled = false then none
  else
    match wire with
    | .transportError => none
    | .response status body =>
      if status < 200 ∨ 300 ≤ status then none
      else
        match body with
        | none => none
        | some data =>
          match data with
          | .obj kvs =>
            match jget kvs "response" with
            | some (.str s) =>
              if s = "" then none
              else
                match loads s with
                | none => none
                | some obj => coerceResponse obj
            | _ => none
          | _ => none

/-- Endpoint `evaluate_prompt` of `app.py`: validates the request, tries the
external evaluator, and falls back to the local pipeline; `HTTPException`
is modelled as the error branch carrying status code and detail. -/
def evaluate_prompt (prompt : String) (goal : Option String) (enabled : Bool)
    (loads : String → Option Json) (wire : OllamaWire) :
    Except (Nat × String) EvaluationResponse :=
  if prompt = "" ∨ pyStrip prompt.data = [] then
    .error (422, "Prompt cannot be empty. Please type your question.")
  else if 4000 < prompt.length then
    .error (422, "Prompt is too long (over 4000 characters). Please shorten it.")
  else
    match evaluate_with_ollama prompt goal enabled loads wire with
    | some r => .ok r
    | none => .ok (score_prompt prompt goal)

/-- The failure modes enumerated by the fallback contract: transport error,
non-2xx status, malformed or missing body, missing/empty/non-string generated
text, inner JSON-decode failure, or schema-coercion failure. -/
def ollamaFailure (loads : String → Option Json) : OllamaWire → Bool
  | .transportError => true
  | .response status body =>
    decide (status < 200) || decide (300 ≤ status) ||
    (match body with
     | none => true
     | some (.obj kvs) =>
       (match jget kvs "response" with
        | some (.str s) =>
          (s == "") ||
            (match loads s with
             | none => true
             | some obj => (coerceResponse obj).isNone)
        | some _ => true
        | none => true)
     | some _ => true)

/-!
Helper definitions and lemmas for the claims.
-/

/-- The sum of the eight attribute sub-scores computed by `score_prompt`. -/
def rawOf (prompt : String) (goal : Option String) : ℤ :=
  ((subsOf (pyStrip prompt.data) goal).map (fun x => x.2.1)).sum

/-- The overall score computed by `score_prompt` (the rubric's
`max_points = 5 * 8 = 40`). -/
def scoreOf (prompt : String) (goal : Option String) : ℤ :=
  pyRound (((100 * rawOf prompt goal : ℤ) : ℚ) / ((40 : ℤ) : ℚ))

lemma score_prompt_score (p : String) (g : Option String) :
    (score_prompt p g).score = scoreOf p g := rfl

lemma score_prompt_label (p : String) (g : Option String) :
    (score_prompt p g).label = _label_from_score (scoreOf p g) := rfl

lemma score_prompt_subscores (p : String) (g : Option String) :
    (score_prompt p g).subscores =
      (subsOf (pyStrip p.data) g).map (fun x => ⟨x.1, x.2.1, x.2.2⟩) := rfl

lemma score_prompt_feedback (p : String) (g : Option String) :
    (score_prompt p g).feedback =
      (subsOf (pyStrip p.data) g).filterMap
        (fun x => if x.2.1 ≤ 3 then some (x.1 ++ ": " ++ x.2.2) else none) := rfl

lemma score_prompt_improved (p : String) (g : Option String) :
    (score_prompt p g).improved_prompt =
      some (build_improved_prompt p g (subsOf (pyStrip p.data) g)) := rfl

lemma score_prompt_suggestions (p : String) (g : Option String) :
    (score_prompt p g).suggestions = suggestionsOf (subsOf (pyStrip p.data) g) := rfl

/-- `score_prompt` as a record of its named components. -/
lemma score_prompt_eq (p : String) (g : Option String) :
    score_prompt p g =
      ⟨_label_from_score (scoreOf p g), scoreOf p g,
        summaryOf (_label_from_score (scoreOf p g)),
        (subsOf (pyStrip p.data) g).map (fun x => ⟨x.1, x.2.1, x.2.2⟩),
        feedbackOf (subsOf (pyStrip p.data) g),
        suggestionsOf (subsOf (pyStrip p.data) g),
        some (build_improved_prompt p g (subsOf (pyStrip p.data) g))⟩ := rfl

lemma rat_floor_eq (q : ℚ) : q.floor = ⌊q⌋ := by
  rw [Rat.floor_def', ← Rat.floor_def]

/-- Python round of an exact integer is that integer. -/
lemma pyRound_intCast (n : ℤ) : pyRound ((n : ℤ) : ℚ) = n := by
  simp only [pyRound, rat_floor_eq, Int.floor_intCast]
  norm_num

lemma clarity_bounds (t : List Char) : 2 ≤ (_clarity t).1 ∧ (_clarity t).1 ≤ 5 := by
  simp only [_clarity]
  split_ifs <;> norm_num

lemma specificity_bounds (t : List Char) (g : Option String) :
    2 ≤ (_specificity t g).1 ∧ (_specificity t g).1 ≤ 5 := by
  simp only [_specificity]
  split_ifs <;> norm_num

lemma context_bounds (t : List Char) : 2 ≤ (_context t).1 ∧ (_context t).1 ≤ 5 := by
  simp only [_context]
  split_ifs <;> norm_num

lemma constraints_bounds (t : List Char) :
    2 ≤ (_constraints_and_format t).1 ∧ (_constraints_and_format t).1 ≤ 5 := by
  simp only [_constraints_and_format]
  split_ifs <;> norm_num

lemma scope_bounds (t : List Char) :
    2 ≤ (_scope_feasibility t).1 ∧ (_scope_feasibility t).1 ≤ 4 := by
  simp only [_scope_feasibility]
  split_ifs <;> norm_num

lemma neutrality_bounds (t : List Char) :
    2 ≤ (_neutrality t).1 ∧ (_neutrality t).1 ≤ 4 := by
  simp only [_neutrality]
  split_ifs <;> norm_num

lemma outcome_bounds (t : List Char) :
    3 ≤ (_outcome_oriented t).1 ∧ (_outcome_oriented t).1 ≤ 4 := by
  simp only [_outcome_oriented]
  split_ifs <;> norm_num

lemma clarification_bounds (t : List Char) :
    3 ≤ (_clarification_handling t).1 ∧ (_clarification_handling t).1 ≤ 5 := by
  simp only [_clarification_handling]
  split_ifs <;> norm_num

/-- The sub-score sum is between 18 (all rules at their lowest) and 40. -/
lemma rawOf_bounds (p : String) (g : Option String) :
    18 ≤ rawOf p g ∧ rawOf p g ≤ 40 := by
  have h1 := clarity_bounds (pyStrip p.data)
  have h2 := specificity_bounds (pyStrip p.data) g
  have h3 := context_bounds (pyStrip p.data)
  have h4 := constraints_bounds (pyStrip p.data)
  have h5 := scope_bounds (pyStrip p.data)
  have h6 := neutrality_bounds (pyStrip p.data)
  have h7 := outcome_bounds (pyStrip p.data)
  have h8 := clarification_bounds (pyStrip p.data)
  simp only [rawOf, subsOf, List.map_cons, List.map_nil, List.sum_cons, List.sum_nil]
  omega

lemma floor_le_pyRound (q : ℚ) : ⌊q⌋ ≤ pyRound q := by
  simp only [pyRound, rat_floor_eq]
  split_ifs <;> omega

lemma le_pyRound_of_le (n : ℤ) (q : ℚ) (h : (n : ℚ) ≤ q) : n ≤ pyRound q :=
  le_trans (Int.le_floor.mpr h) (floor_le_pyRound q)

lemma pyRound_le_of_le (n : ℤ) (q : ℚ) (h : q ≤ (n : ℚ)) : pyRound q ≤ n := by
  have hf : ⌊q⌋ ≤ n := by
    have := Int.floor_le_floor h
    simpa using this
  have hfl : (⌊q⌋ : ℚ) ≤ q := Int.floor_le q
  simp only [pyRound, rat_floor_eq]
  split_ifs with h1 h2 h3
  · exact hf
  · have hlt : (⌊q⌋ : ℚ) < (n : ℚ) - 1 / 2 := by linarith
    have : (⌊q⌋ : ℚ) < (n : ℚ) := by linarith
    have : ⌊q⌋ < n := by exact_mod_cast this
    omega
  · exact hf
  · have heq : q - (⌊q⌋ : ℚ) = 1 / 2 := le_antisymm (not_lt.mp h2) (not_lt.mp h1)
    have : (⌊q⌋ : ℚ) < (n : ℚ) := by linarith
    have : ⌊q⌋ < n := by exact_mod_cast this
    omega

lemma scoreOf_ge_45 (p : String) (g : Option String) : 45 ≤ scoreOf p g := by
  apply le_pyRound_of_le
  rw [le_div_iff₀ (by norm_num)]
  have h : (18 : ℚ) ≤ ((rawOf p g : ℤ) : ℚ) := by exact_mod_cast (rawOf_bounds p g).1
  push_cast
  push_cast at h
  linarith

lemma scoreOf_le_100 (p : String) (g : Option String) : scoreOf p g ≤ 100 := by
  apply pyRound_le_of_le
  rw [div_le_iff₀ (by norm_num)]
  have h : ((rawOf p g : ℤ) : ℚ) ≤ (40 : ℚ) := by exact_mod_cast (rawOf_bounds p g).2
  push_cast
  push_cast at h
  linarith

/-- Claim C1: the score-to-label classifier maps every integer score to
exactly one of the three labels by the fixed thresholds: `good` iff the
score is at least 75, `ok` iff it is in `[45, 75)`, `bad` iff it is
below 45. -/
theorem C1_label_thresholds (s : ℤ) :
    (75 ≤ s → _label_from_score s = "good") ∧
    (45 ≤ s ∧ s < 75 → _label_from_score s = "ok") ∧
    (s < 45 → _label_from_score s = "bad") ∧
    (_label_from_score s = "good" ∨ _label_from_score s = "ok" ∨
      _label_from_score s = "bad") := by
  simp only [_label_from_score]
  split_ifs with h1 h2 <;>
    refine ⟨fun h => ?_, fun h => ?_, fun h => ?_, ?_⟩ <;> first | rfl | omega | simp

/-- Claim C2: the local pipeline's overall score equals the Python rounding
of `100 * (sum of the 8 attribute sub-scores) / 40` (the rubric's
`max_points = 5 * 8`), and that overall score always lies in `[0, 100]`. -/
theorem C2_score_formula_and_range (p : String) (g : Option String) :
    (score_prompt p g).score =
      pyRound (((100 * rawOf p g : ℤ) : ℚ) / ((40 : ℤ) : ℚ)) ∧
    (score_prompt p g).subscores.length = 8 ∧
    0 ≤ (score_prompt p g).score ∧ (score_prompt p g).score ≤ 100 := by
  refine ⟨rfl, rfl, ?_, ?_⟩
  · rw [score_prompt_score]
    have := scoreOf_ge_45 p g
    omega
  · rw [score_prompt_score]
    exact scoreOf_le_100 p g

/-- Claim C9: the local pipeline is deterministic: two calls of
`score_prompt` with the identical `(text, goal)` yield identical outputs in
every field. In this embedding `score_prompt` is a pure function of its two
arguments (no randomness and no external state enter its definition), so
the two results are definitionally equal. -/
theorem C9_determinism (p : String) (g : Option String) :
    score_prompt p g = score_prompt p g := rfl

/-- Claim C10: every overall score of the local pipeline is at least 45
(each rule's minimum is 2 or 3, so the sub-score sum is at least 18 of 40),
and consequently `score_prompt` never returns the label `bad`. -/
theorem C10_score_floor_no_bad (p : String) (g : Option String) :
    45 ≤ (score_prompt p g).score ∧ (score_prompt p g).label ≠ "bad" := by
  have h45 := scoreOf_ge_45 p g
  constructor
  · rw [score_prompt_score]; exact h45
  · rw [score_prompt_label]
    simp only [_label_from_score]
    split_ifs with h1 <;> decide

/-- The input text of the spec's "good" scenario. -/
def sqlNoSqlText : String :=
  "Explain the differences between SQL and NoSQL in 5 bullets for a beginner."

lemma sqlNoSql_raw : rawOf sqlNoSqlText none = 28 := by decide

lemma sqlNoSql_score : scoreOf sqlNoSqlText none = 70 := by
  rw [scoreOf, sqlNoSql_raw]
  have h : (((100 * 28 : ℤ) : ℤ) : ℚ) / ((40 : ℤ) : ℚ) = ((70 : ℤ) : ℚ) := by norm_num
  rw [h, pyRound_intCast]

/-- Claim C5 counterexample: on the SQL-vs-NoSQL text with goal absent, the
local pipeline does not return label `good` with score at least 75 (the text
contains neither a question mark nor a question word, so Clarity scores 3
and Context scores 2, giving 28 of 40 points). -/
theorem C5_counterexample :
    ¬((score_prompt sqlNoSqlText none).label = "good" ∧
      75 ≤ (score_prompt sqlNoSqlText none).score) := by
  rw [score_prompt_label, score_prompt_score, sqlNoSql_score]
  decide

/-- Claim C5 (amended): on the SQL-vs-NoSQL text with goal absent, the local
pipeline returns label `ok` with overall score 70; the attribute sub-scores
are Clarity 3, Specificity 4, Context 2, Constraints & Format 5,
Scope & Feasibility 4, Neutrality 4, Outcome Orientation 3, Clarification 3. -/
theorem C5_amended_sql_nosql_scenario :
    (score_prompt sqlNoSqlText none).label = "ok" ∧
    (score_prompt sqlNoSqlText none).score = 70 ∧
    (score_prompt sqlNoSqlText none).subscores.map Subscore.score =
      [3, 4, 2, 5, 4, 4, 3, 3] := by
  refine ⟨?_, ?_, ?_⟩
  · rw [score_prompt_label, sqlNoSql_score]; decide
  · rw [score_prompt_score, sqlNoSql_score]
  · rw [score_prompt_subscores]; decide

lemma empty_raw : rawOf "" none = 20 := by decide

lemma empty_score : scoreOf "" none = 50 := by
  rw [scoreOf, empty_raw]
  have h : (((100 * 20 : ℤ) : ℤ) : ℚ) / ((40 : ℤ) : ℚ) = ((50 : ℤ) : ℚ) := by norm_num
  rw [h, pyRound_intCast]

/-- Claim C6 counterexample: on empty text the Neutrality rule does not
return its floor (lowest possible) score: it returns 4, while its floor is 2
(attained, for example, on the text `obviously`). -/
theorem C6_counterexample :
    (_neutrality (pyStrip "".data)).1 = 4 ∧ (_neutrality "obviously".data).1 = 2 := by
  decide

/-- Claim C6 (amended): on text that is empty after trimming (goal absent)
the local pipeline does not fail and returns a complete response: seven of
the eight rules return their floor score while Neutrality returns its
no-signal score 4, the overall score is 50 with label `ok`, and the
improved text is the fixed generic template ending in the generic
goal-fallback sentence. -/
theorem C6_amended_empty_text :
    score_prompt "" none =
      ⟨"ok", 50, "Decent question—add context, specifics, or format to improve.",
       [⟨"Clarity", 2, "Too short/vague to understand"⟩,
        ⟨"Specificity", 2, "Too general—narrow the scope."⟩,
        ⟨"Context", 2, "Provide key background or inputs."⟩,
        ⟨"Constraints & Format", 2, "Specify length, audience, or format."⟩,
        ⟨"Scope & Feasibility", 2, "Too short to determine scope"⟩,
        ⟨"Neutrality", 4, "Neutral phrasing"⟩,
        ⟨"Outcome Orientation", 3, "Optionally state intended outcome to guide answers."⟩,
        ⟨"Clarification", 3, "Encourage clarifying questions when info is missing."⟩],
       ["Clarity: Too short/vague to understand",
        "Specificity: Too general—narrow the scope.",
        "Context: Provide key background or inputs.",
        "Constraints & Format: Specify length, audience, or format.",
        "Scope & Feasibility: Too short to determine scope",
        "Outcome Orientation: Optionally state intended outcome to guide answers.",
        "Clarification: Encourage clarifying questions when info is missing."],
       [⟨"Ask a direct question",
         "Use a single, specific question (e.g., \x27How can I ...?\x27)."⟩,
        ⟨"Narrow the focus",
         "Add audience, topic, and numbers (e.g., \x27top 3\x27, \x27in 200 words\x27)."⟩,
        ⟨"Set expectations",
         "Request a format (bullets/table/JSON) and length/tone."⟩,
        ⟨"Right-size the scope",
         "Avoid \x27everything/anything\x27; ask for the most relevant parts."⟩,
        ⟨"Invite questions",
         "Allow 1–2 clarifying questions if information is missing."⟩],
       some ("Question: How can I achieve this goal?\n\nContext: Briefly include the most relevant background or inputs.\n\nSpecifics: Limit to top 3 points and focus on what\x27s actionable.\n\nFormat: Return 5 bullet points and a short summary (<=120 words).\n\nIf information is missing, ask up to 2 clarifying questions before answering.\n\nGoal: State your purpose (e.g., for executives).")⟩ := by
  rw [score_prompt_eq, empty_score]
  decide

/-- A concrete non-empty input for the synthesizer claim. -/
def owlsText : String := "Tell me about owls"

/-- Claim C7 counterexample: for the non-empty text `Tell me about owls`
the synthesized improved prompt is non-empty but does not contain the
cleaned-up original text at all (the synthesizer ignores its `prompt`
argument), so it does not incorporate the original text; and with the goal
`for executives ` (carrying a trailing space) the goal text flows verbatim
into the final `Goal:` line, so the improved prompt ends in trailing
whitespace (it is not trim-stable), refuting the no-whitespace-artifacts
part as well. -/
theorem C7_counterexample :
    (((score_prompt owlsText none).improved_prompt.getD "") ≠ "" ∧
     containsSub (pyStrip owlsText.data)
       ((score_prompt owlsText none).improved_prompt.getD "").data = false) ∧
    pyStrip ((score_prompt owlsText (some "for executives ")).improved_prompt.getD "").data ≠
      ((score_prompt owlsText (some "for executives ")).improved_prompt.getD "").data := by
  refine ⟨⟨?_, ?_⟩, ?_⟩
  · rw [score_prompt_improved]; decide
  · rw [score_prompt_improved]; decide
  · rw [score_prompt_improved]; decide

/-- The inner loop of `String.intercalate` only appends to its accumulator. -/
lemma intercalate_go_data (sep : String) (l : List String) :
    ∀ acc : String, ∃ t : List Char,
      (String.intercalate.go acc sep l).data = acc.data ++ t := by
  induction l with
  | nil => intro acc; exact ⟨[], (List.append_nil _).symm⟩
  | cons a as ih =>
    intro acc
    obtain ⟨t, ht⟩ := ih (acc ++ sep ++ a)
    refine ⟨sep.data ++ (a.data ++ t), ?_⟩
    show (String.intercalate.go (acc ++ sep ++ a) sep as).data = _
    rw [ht]
    simp [List.append_assoc]

/-- Joining the synthesizer's parts list always yields the fixed question
stem followed by some tail, whatever the optional parts and the goal are. -/
lemma intercalate_build (X g5 : String) (l2 l3 l4 : List String) :
    ∃ t : List Char,
      (String.intercalate "\n\n"
        (["Question: How can I " ++ X ++ "achieve this goal?"] ++ l2 ++ l3 ++ l4 ++
         ["If information is missing, ask up to 2 clarifying questions before answering."] ++
         ["Goal: " ++ g5])).data = "Question: How can I ".data ++ t := by
  obtain ⟨t, ht⟩ := intercalate_go_data "\n\n"
    (l2 ++ l3 ++ l4 ++
      ["If information is missing, ask up to 2 clarifying questions before answering."] ++
      ["Goal: " ++ g5])
    ("Question: How can I " ++ X ++ "achieve this goal?")
  refine ⟨X.data ++ ("achieve this goal?".data ++ t), ?_⟩
  show (String.intercalate.go ("Question: How can I " ++ X ++ "achieve this goal?") "\n\n"
    (l2 ++ l3 ++ l4 ++
      ["If information is missing, ask up to 2 clarifying questions before answering."] ++
      ["Goal: " ++ g5])).data = _
  rw [ht]
  simp [List.append_assoc]

/-- For every prompt, goal and subscore list, the synthesized text starts
with the fixed question stem. -/
lemma build_improved_head (p : String) (g : Option String)
    (subs : List (String × ℤ × String)) :
    ∃ t : List Char,
      (build_improved_prompt p g subs).data = "Question: How can I ".data ++ t := by
  simp only [build_improved_prompt]
  exact intercalate_build _ _ _ _ _

/-- Claim C7 (amended): for every input and every goal the synthesized
improved prompt is a non-empty string starting with the fixed question stem
(hence with no leading whitespace), and it has no trailing whitespace when
the goal is absent (a goal carrying trailing whitespace flows verbatim into
the final `Goal:` line, as the counterexample shows); it is assembled from
the fixed template and the goal alone: `build_improved_prompt` does not
depend on its original-text argument, so the improved prompt never
incorporates the original text. -/
theorem C7_amended_template_only (p p' : String) (g : Option String)
    (subs : List (String × ℤ × String)) :
    build_improved_prompt p g subs = build_improved_prompt p' g subs ∧
    ∃ s, (score_prompt p g).improved_prompt = some s ∧ s ≠ "" ∧
      s.data.head? = some 'Q' ∧
      (g = none → pyStrip s.data = s.data) := by
  have hq : (build_improved_prompt p g (subsOf (pyStrip p.data) g)).data.head? =
      some 'Q' := by
    obtain ⟨t, ht⟩ := build_improved_head p g (subsOf (pyStrip p.data) g)
    rw [ht]
    rfl
  refine ⟨rfl, build_improved_prompt p g (subsOf (pyStrip p.data) g), rfl, ?_, hq, ?_⟩
  · intro h
    rw [h] at hq
    exact absurd hq (by decide)
  · rintro rfl
    simp only [build_improved_prompt]
    split_ifs <;> decide

/-- The adapter returns `none` exactly on the enumerated failure modes. -/
lemma evaluate_with_ollama_isNone (p : String) (g : Option String)
    (loads : String → Option Json) (wire : OllamaWire) :
    (evaluate_with_ollama p g true loads wire).isNone = ollamaFailure loads wire := by
  cases wire with
  | transportError => rfl
  | response st body =>
    simp only [evaluate_with_ollama, ollamaFailure]
    by_cases hst : st < 200 ∨ 300 ≤ st
    · rcases hst with h | h <;> simp [h]
    · push_neg at hst
      obtain ⟨h1, h2⟩ := hst
      simp only [if_neg (by omega : ¬(st < 200 ∨ 300 ≤ st)),
        decide_eq_false (by omega : ¬st < 200), decide_eq_false (by omega : ¬300 ≤ st),
        Bool.false_or]
      cases body with
      | none => rfl
      | some data =>
        cases data with
        | obj kvs =>
          cases hj : jget kvs "response" with
          | none => simp [hj]
          | some v =>
            cases v with
            | str s =>
              simp only [hj]
              by_cases hs : s = ""
              · simp [hs]
              · simp only [if_neg hs, beq_eq_false_iff_ne (a := s) (b := "")]
                cases hl : loads s with
                | none => simp [hl, hs]
                | some o => simp [hl, hs]
            | null => simp [hj]
            | bool b => simp [hj]
            | num n => simp [hj]
            | arr xs => simp [hj]
            | obj kvs2 => simp [hj]
        | null => rfl
        | bool b => rfl
        | num n => rfl
        | str s => rfl
        | arr xs => rfl

/-- Claim C3: with the external evaluator enabled, whenever its call fails in
any of the enumerated ways (transport error, non-2xx status, malformed or
missing body, missing/empty/non-string generated text, inner JSON-decode
failure, or schema-coercion failure), the orchestrator returns exactly the
outcome the local pipeline alone produces for the same `(text, goal)`, and
no error is surfaced to the caller. -/
theorem C3_failed_external_falls_back_to_local (p : String) (g : Option String)
    (loads : String → Option Json) (wire : OllamaWire)
    (hne : pyStrip p.data ≠ []) (hlen : p.length ≤ 4000)
    (hfail : ollamaFailure loads wire = true) :
    evaluate_prompt p g true loads wire = .ok (score_prompt p g) := by
  have hnone : evaluate_with_ollama p g true loads wire = none := by
    have h := evaluate_with_ollama_isNone p g loads wire
    rw [hfail] at h
    exact Option.isNone_iff_eq_none.mp h
  have hp : ¬(p = "" ∨ pyStrip p.data = []) := by
    rintro (h | h)
    · exact hne (by rw [h]; rfl)
    · exact hne h
  simp only [evaluate_prompt, if_neg hp, if_neg (by omega : ¬4000 < p.length), hnone]

/-- Witness for C3: a concrete valid prompt with an HTTP 500 response falls
back to the local pipeline's outcome. -/
theorem C3_witness :
    evaluate_prompt "What should I ask?" none true (fun _ => none)
      (OllamaWire.response 500 none) =
      .ok (score_prompt "What should I ask?" none) :=
  C3_failed_external_falls_back_to_local "What should I ask?" none (fun _ => none)
    (OllamaWire.response 500 none) (by decide) (by decide) (by decide)

/-- Claim C4: when coercing the external payload object, a missing `label`
field defaults to `ok`, a missing `score` field defaults to the mid-range
value 60, and missing array fields default to empty; and if any single field
fails coercion, the whole coercion returns `none` — never a
partially-populated outcome. -/
theorem C4_coercion_defaults_and_all_or_nothing (kvs : List (String × Json))
    (r : EvaluationResponse) (hr : coerceResponse (Json.obj kvs) = some r) :
    (jget kvs "label" = none → r.label = "ok") ∧
    (jget kvs "score" = none → r.score = 60) ∧
    (jget kvs "subscores" = none → r.subscores = []) ∧
    (jget kvs "feedback" = none → r.feedback = []) ∧
    (jget kvs "suggestions" = none → r.suggestions = []) ∧
    ((coerceLabel (jget kvs "label") = none ∨ coerceScore (jget kvs "score") = none ∨
      coerceSummary (jget kvs "summary") = none ∨
      coerceSubscores (jget kvs "subscores") = none ∨
      coerceFeedback (jget kvs "feedback") = none ∨
      coerceSuggestions (jget kvs "suggestions") = none ∨
      coerceImproved (jget kvs "improved_prompt") = none) → False) := by
  cases hl : coerceLabel (jget kvs "label") with
  | none => simp [coerceResponse, hl] at hr
  | some lb =>
  cases hsc : coerceScore (jget kvs "score") with
  | none => simp [coerceResponse, hl, hsc] at hr
  | some sc =>
  cases hsm : coerceSummary (jget kvs "summary") with
  | none => simp [coerceResponse, hl, hsc, hsm] at hr
  | some sm =>
  cases hsub : coerceSubscores (jget kvs "subscores") with
  | none => simp [coerceResponse, hl, hsc, hsm, hsub] at hr
  | some sub =>
  cases hfb : coerceFeedback (jget kvs "feedback") with
  | none => simp [coerceResponse, hl, hsc, hsm, hsub, hfb] at hr
  | some fb =>
  cases hsg : coerceSuggestions (jget kvs "suggestions") with
  | none => simp [coerceResponse, hl, hsc, hsm, hsub, hfb, hsg] at hr
  | some sg =>
  cases hip : coerceImproved (jget kvs "improved_prompt") with
  | none => simp [coerceResponse, hl, hsc, hsm, hsub, hfb, hsg, hip] at hr
  | some ip =>
  simp [coerceResponse, hl, hsc, hsm, hsub, hfb, hsg, hip] at hr
  subst hr
  refine ⟨?_, ?_, ?_, ?_, ?_, ?_⟩
  · intro hmiss
    rw [hmiss, show coerceLabel none = some "ok" by decide] at hl
    exact (Option.some_inj.mp hl).symm
  · intro hmiss
    rw [hmiss, show coerceScore none = some 60 by decide] at hsc
    exact (Option.some_inj.mp hsc).symm
  · intro hmiss
    rw [hmiss, show coerceSubscores none = some [] by decide] at hsub
    exact (Option.some_inj.mp hsub).symm
  · intro hmiss
    rw [hmiss, show coerceFeedback none = some [] by decide] at hfb
    exact (Option.some_inj.mp hfb).symm
  · intro hmiss
    rw [hmiss, show coerceSuggestions none = some [] by decide] at hsg
    exact (Option.some_inj.mp hsg).symm
  · rintro (h | h | h | h | h | h | h) <;> simp_all

/-- The six possible suggestion entries as a function of the six
"attribute underperforms" flags, in source order. -/
def sugPieces (b1 b2 b3 b4 b5 b6 : Bool) : List Suggestion :=
  (if b1 then [⟨"Ask a direct question",
    "Use a single, specific question (e.g., \x27How can I ...?\x27)."⟩] else []) ++
  (if b2 then [⟨"Narrow the focus",
    "Add audience, topic, and numbers (e.g., \x27top 3\x27, \x27in 200 words\x27)."⟩] else []) ++
  (if b3 then [⟨"Set expectations",
    "Request a format (bullets/table/JSON) and length/tone."⟩] else []) ++
  (if b4 then [⟨"Right-size the scope",
    "Avoid \x27everything/anything\x27; ask for the most relevant parts."⟩] else []) ++
  (if b5 then [⟨"Use neutral phrasing",
    "Prefer \x27Compare X and Y\x27 over \x27Why is X better?\x27."⟩] else []) ++
  (if b6 then [⟨"Invite questions",
    "Allow 1–2 clarifying questions if information is missing."⟩] else [])

lemma suggestionsOf_eq_sugPieces (t : List Char) (g : Option String) :
    suggestionsOf (subsOf t g) =
      sugPieces (decide ((_clarity t).1 ≤ 3)) (decide ((_specificity t g).1 ≤ 3))
        (decide ((_constraints_and_format t).1 ≤ 3)) (decide ((_scope_feasibility t).1 ≤ 3))
        (decide ((_neutrality t).1 ≤ 3)) (decide ((_clarification_handling t).1 ≤ 3)) := by
  simp [suggestionsOf, subsOf, sugPieces]

lemma sugPieces_props (b1 b2 b3 b4 b5 b6 : Bool) :
    (((sugPieces b1 b2 b3 b4 b5 b6).map Suggestion.title).Nodup) ∧
    ((∃ sg ∈ sugPieces b1 b2 b3 b4 b5 b6, sg.title = "Ask a direct question") ↔ b1 = true) ∧
    ((∃ sg ∈ sugPieces b1 b2 b3 b4 b5 b6, sg.title = "Narrow the focus") ↔ b2 = true) ∧
    ((∃ sg ∈ sugPieces b1 b2 b3 b4 b5 b6, sg.title = "Set expectations") ↔ b3 = true) ∧
    ((∃ sg ∈ sugPieces b1 b2 b3 b4 b5 b6, sg.title = "Right-size the scope") ↔ b4 = true) ∧
    ((∃ sg ∈ sugPieces b1 b2 b3 b4 b5 b6, sg.title = "Use neutral phrasing") ↔ b5 = true) ∧
    ((∃ sg ∈ sugPieces b1 b2 b3 b4 b5 b6, sg.title = "Invite questions") ↔ b6 = true) ∧
    (∀ sg ∈ sugPieces b1 b2 b3 b4 b5 b6, sg.title ∈
      (["Ask a direct question", "Narrow the focus", "Set expectations",
        "Right-size the scope", "Use neutral phrasing", "Invite questions"] : List String)) := by
  cases b1 <;> cases b2 <;> cases b3 <;> cases b4 <;> cases b5 <;> cases b6 <;> decide

lemma filterMap_mk_comm (l : List (String × ℤ × String)) :
    (l.map (fun x => (⟨x.1, x.2.1, x.2.2⟩ : Subscore))).filterMap
      (fun ss => if ss.score ≤ 3 then some (ss.name ++ ": " ++ ss.comment) else none) =
    l.filterMap (fun x => if x.2.1 ≤ 3 then some (x.1 ++ ": " ++ x.2.2) else none) := by
  induction l with
  | nil => rfl
  | cons a t ih =>
    simp only [List.map_cons, List.filterMap_cons]
    split_ifs <;> simp [ih]

/-- Claim C8 counterexample: on the SQL-vs-NoSQL text, four attributes score
at or below 3 (Clarity 3, Context 2, Outcome Orientation 3, Clarification 3)
but only two suggestions are emitted, so there is not one tip per
underperforming attribute; and the feedback list starts with Clarity
(score 3) while the later Context entry scores 2, so it is not ordered
worst-first. -/
theorem C8_counterexample :
    ((score_prompt sqlNoSqlText none).subscores.filter
      (fun ss => ss.score ≤ 3)).length = 4 ∧
    (score_prompt sqlNoSqlText none).suggestions.length = 2 ∧
    (score_prompt sqlNoSqlText none).feedback.head? =
      some "Clarity: Make it a direct question with a clear ask." ∧
    (score_prompt sqlNoSqlText none).subscores.map Subscore.score =
      [3, 4, 2, 5, 4, 4, 3, 3] := by
  refine ⟨?_, ?_, ?_, ?_⟩
  · rw [score_prompt_subscores]; decide
  · rw [score_prompt_suggestions]; decide
  · rw [score_prompt_feedback]; decide
  · rw [score_prompt_subscores]; decide

/-- Claim C8 (amended): for every input, the feedback list contains exactly
the attributes scoring at most 3 (hence below their ceiling), with their
comments, in fixed rubric order — not sorted worst-first and capped only by
the rubric size 8; the suggestions list contains exactly one tip for each
underperforming attribute among the six covered ones (Clarity, Specificity,
Constraints & Format, Scope & Feasibility, Neutrality, Clarification),
deduplicated by attribute, and never a tip for Context or Outcome
Orientation. -/
theorem C8_feedback_and_suggestions (p : String) (g : Option String) :
    (score_prompt p g).feedback =
      (score_prompt p g).subscores.filterMap
        (fun ss => if ss.score ≤ 3 then some (ss.name ++ ": " ++ ss.comment) else none) ∧
    (score_prompt p g).feedback.length ≤ 8 ∧
    ((score_prompt p g).suggestions.map Suggestion.title).Nodup ∧
    ((∃ sg ∈ (score_prompt p g).suggestions, sg.title = "Ask a direct question") ↔
      (_clarity (pyStrip p.data)).1 ≤ 3) ∧
    ((∃ sg ∈ (score_prompt p g).suggestions, sg.title = "Narrow the focus") ↔
      (_specificity (pyStrip p.data) g).1 ≤ 3) ∧
    ((∃ sg ∈ (score_prompt p g).suggestions, sg.title = "Set expectations") ↔
      (_constraints_and_format (pyStrip p.data)).1 ≤ 3) ∧
    ((∃ sg ∈ (score_prompt p g).suggestions, sg.title = "Right-size the scope") ↔
      (_scope_feasibility (pyStrip p.data)).1 ≤ 3) ∧
    ((∃ sg ∈ (score_prompt p g).suggestions, sg.title = "Use neutral phrasing") ↔
      (_neutrality (pyStrip p.data)).1 ≤ 3) ∧
    ((∃ sg ∈ (score_prompt p g).suggestions, sg.title = "Invite questions") ↔
      (_clarification_handling (pyStrip p.data)).1 ≤ 3) ∧
    (∀ sg ∈ (score_prompt p g).suggestions, sg.title ∈
      (["Ask a direct question", "Narrow the focus", "Set expectations",
        "Right-size the scope", "Use neutral phrasing", "Invite questions"] :
        List String)) := by
  have H := sugPieces_props (decide ((_clarity (pyStrip p.data)).1 ≤ 3))
    (decide ((_specificity (pyStrip p.data) g).1 ≤ 3))
    (decide ((_constraints_and_format (pyStrip p.data)).1 ≤ 3))
    (decide ((_scope_feasibility (pyStrip p.data)).1 ≤ 3))
    (decide ((_neutrality (pyStrip p.data)).1 ≤ 3))
    (decide ((_clarification_handling (pyStrip p.data)).1 ≤ 3))
  refine ⟨?_, ?_, ?_, ?_, ?_, ?_, ?_, ?_, ?_, ?_⟩
  · rw [score_prompt_feedback, score_prompt_subscores, filterMap_mk_comm]
  · rw [score_prompt_feedback]
    exact (List.length_filterMap_le _ _).trans (by simp [subsOf])
  · rw [score_prompt_suggestions, suggestionsOf_eq_sugPieces]; exact H.1
  · rw [score_prompt_suggestions, suggestionsOf_eq_sugPieces]
    simpa using H.2.1
  · rw [score_prompt_suggestions, suggestionsOf_eq_sugPieces]
    simpa using H.2.2.1
  · rw [score_prompt_suggestions, suggestionsOf_eq_sugPieces]
    simpa using H.2.2.2.1
  · rw [score_prompt_suggestions, suggestionsOf_eq_sugPieces]
    simpa using H.2.2.2.2.1
  · rw [score_prompt_suggestions, suggestionsOf_eq_sugPieces]
    simpa using H.2.2.2.2.2.1
  · rw [score_prompt_suggestions, suggestionsOf_eq_sugPieces]
    simpa using H.2.2.2.2.2.2.1
  · rw [score_prompt_suggestions, suggestionsOf_eq_sugPieces]
    exact H.2.2.2.2.2.2.2

/-- Witness for C4: the empty payload object coerces successfully, and every
defaulted field of the result is observable at the defaults. -/
theorem C4_witness :
    ((⟨"ok", 60, "", [], [], [], none⟩ : EvaluationResponse).label = "ok") ∧
    ((⟨"ok", 60, "", [], [], [], none⟩ : EvaluationResponse).score = 60) ∧
    ((⟨"ok", 60, "", [], [], [], none⟩ : EvaluationResponse).subscores = []) ∧
    ((⟨"ok", 60, "", [], [], [], none⟩ : EvaluationResponse).feedback = []) ∧
    ((⟨"ok", 60, "", [], [], [], none⟩ : EvaluationResponse).suggestions = []) := by
  have h := C4_coercion_defaults_and_all_or_nothing []
    ⟨"ok", 60, "", [], [], [], none⟩ (by decide)
  exact ⟨h.1 rfl, h.2.1 rfl, h.2.2.1 rfl, h.2.2.2.1 rfl, h.2.2.2.2.1 rfl⟩
